import Mathlib

/-
Verification of the Exotel-Vapi connector scripts.

Shallow embedding of the pure request/response logic of the repository:
  - src/src/vapi_exotel_integration.py      (namespace VapiExotel)
  - src/production_integration_script.py    (namespace Production)
  - src/src/exotel_outbound_calls.py        (namespace Outbound)
  - src/exotel-vsip-api/python/_client.py   (namespace Client)

HTTP transport, JSON parsing of wire bytes and the XML library are external
collaborators; their outcomes enter the embedding as explicit parameters
(HttpExchange, ReqOutcome, BodyOracle).  Python dictionaries probed by the
scripts are modelled as flat association lists of strings, which is the shape
the scripts actually exercise; absent keys are modelled by Option or by the
same defaults the Python .get calls supply.
-/

namespace ExoVapi

/-! Python-semantics helpers -/

/-- The single-quote character, used by the Python str() rendering of dicts. -/
def sqChar : Char := Char.ofNat 39

/-- Python repr of a plain string (no escaping needed for the strings involved). -/
def pyQuote (s : String) : String := String.mk (sqChar :: s.toList ++ [sqChar])

/-- A Python dict with string keys and string values, as an association list. -/
abbrev PyDict := List (String × String)

/-- Python d.get(k): first binding of k, if any. -/
def pyGet (d : PyDict) (k : String) : Option String :=
  (d.find? (fun kv => kv.1 == k)).map (fun kv => kv.2)

/-- Python d.get(k, dflt). -/
def pyGetD (d : PyDict) (k dflt : String) : String := (pyGet d k).getD dflt

/-- Python str() of a flat string dict: keys and values singly quoted,
separated by comma-space, wrapped in braces. -/
def pyStrDict (d : PyDict) : String :=
  "\x7b" ++ String.intercalate ", " (d.map (fun kv => pyQuote kv.1 ++ ": " ++ pyQuote kv.2)) ++ "\x7d"

/-- Python substring membership: needle in hay. -/
def containsSub (needle hay : String) : Bool := decide (needle.toList <:+: hay.toList)

/-- Python s.lower() (ASCII case folding, which is all the scripts compare). -/
def pyLower (s : String) : String := String.mk (s.toList.map Char.toLower)

/-- Python truthiness of an optional environment value: None and the empty
string are falsy. -/
def pyTruthy : Option String → Bool
  | none => false
  | some s => !(s == "")

/-- Outcome of a call to the authenticated request client: the parsed body on
success, or the text of the raised exception. -/
inductive ReqOutcome (α : Type) where
  | ok (v : α)
  | exn (msg : String)
deriving DecidableEq

/-- An HTTP exchange as seen by urlopen: final status and body text. -/
structure HttpExchange where
  status : Nat
  body : String
deriving DecidableEq

namespace VapiExotel

/-
Embedding of src/src/vapi_exotel_integration.py (class VapiExotelIntegrator).
-/

/-- The configuration fields checked by _make_request; None models an absent
environment variable. -/
structure ExoConfig where
  auth_key : Option String
  auth_token : Option String
  account_sid : Option String
deriving DecidableEq

/-- One element of the "response" list in the destination-uris reply:
optional "status", "error_data" dict (Python default: empty dict) and
optional "data" dict. -/
structure DestItem where
  status : Option String
  error_data : PyDict
  data : Option PyDict
deriving DecidableEq

/-- The parsed destination-uris reply: the optional "response" list. -/
structure DestResult where
  response : Option (List DestItem)
deriving DecidableEq

/-- A per-step result dict; fields that a given branch does not set stay none. -/
structure StepResult where
  success : Bool := false
  error : Option String := none
  destination_id : Option String := none
  destination : Option String := none
  message : Option String := none
  trunk_sid : Option String := none
  phone_number : Option String := none
deriving DecidableEq

/-- VapiExotelIntegrator._make_request, lines 44-73: reject the call before any
network use when a required credential is absent or blank, raise on non-2xx
HTTP status (urlopen raises HTTPError there) with a message carrying the code
and the body, otherwise hand back the JSON-parsed body (the parameter
parsed stands for json.loads of the 2xx body). -/
def _make_request {α : Type} (cfg : ExoConfig) (http : HttpExchange) (parsed : α) :
    ReqOutcome α :=
  if !(pyTruthy cfg.auth_key && pyTruthy cfg.auth_token && pyTruthy cfg.account_sid) then
    .exn "Missing required Exotel credentials. Set EXO_AUTH_KEY, EXO_AUTH_TOKEN, and EXO_ACCOUNT_SID environment variables."
  else if 200 ≤ http.status ∧ http.status ≤ 299 then
    .ok parsed
  else
    .exn ("Exotel API Error " ++ Nat.repr http.status ++ ": " ++ http.body)

/-- VapiExotelIntegrator.convert_vapi_fqdn, lines 75-83: when the address
contains an at sign, Python replace substitutes a dot for every occurrence
(single-character pattern, hence a character map); otherwise the input is
returned unchanged. -/
def substAt (c : Char) : Char := if c = '@' then '.' else c

def convert_vapi_fqdn (s : String) : String :=
  if '@' ∈ s.toList then String.mk (s.toList.map substAt) else s

/-- The SIP destination f-string of line 91 (and of
production_integration_script.py line 278). -/
def build_sip_destination (converted_fqdn : String) : String :=
  converted_fqdn ++ ":5060;transport=tcp"

/-- VapiExotelIntegrator.add_vapi_destination, lines 85-126.  The nested dict
accesses of the status-success branch raise KeyError on an absent key, which
the enclosing except turns into a failed step whose error is the Python
str() of the KeyError (the quoted key name). -/
def add_vapi_destination (o : ReqOutcome DestResult) (vapi_fqdn : String)
    (trunk_sid : Option String) (default_trunk : String) : StepResult :=
  let tsid := trunk_sid.getD default_trunk
  let sip_destination := build_sip_destination (convert_vapi_fqdn vapi_fqdn)
  match o with
  | .exn e => { success := false, error := some e }
  | .ok result =>
    match result.response with
    | some (item :: _) =>
      if item.status = some "success" then
        match item.data with
        | none => { success := false, error := some (pyQuote "data") }
        | some ddict =>
          match pyGet ddict "id" with
          | none => { success := false, error := some (pyQuote "id") }
          | some i =>
            match pyGet ddict "destination" with
            | none => { success := false, error := some (pyQuote "destination") }
            | some dst =>
              { success := true, destination_id := some i,
                destination := some dst, trunk_sid := some tsid }
      else if containsSub "Duplicate resource" (pyStrDict item.error_data) then
        { success := true, message := some "Destination already exists",
          destination := some sip_destination, trunk_sid := some tsid }
      else
        { success := false, error := some (pyGetD item.error_data "message" "Unknown error") }
    | some [] => { success := false, error := some "Invalid API response format" }
    | none => { success := false, error := some "Invalid API response format" }

/-- VapiExotelIntegrator.map_phone_number, lines 128-150.  The "response" value
of this endpoint is a dict; the step succeeds when that dict is truthy and
either its "status" is "success" or its str() contains "Duplicate resource". -/
def map_phone_number (o : ReqOutcome (Option PyDict)) (phone_number : String)
    (trunk_sid : Option String) (default_trunk : String) : StepResult :=
  let tsid := trunk_sid.getD default_trunk
  match o with
  | .exn e => { success := false, error := some e }
  | .ok r =>
    match r with
    | some d =>
      if d.isEmpty then
        { success := false, error := some "Phone number mapping failed" }
      else if pyGet d "status" = some "success" ∨
          containsSub "Duplicate resource" (pyStrDict d) then
        { success := true, phone_number := some phone_number, trunk_sid := some tsid,
          message := some "Phone number mapped successfully" }
      else
        { success := false, error := some "Phone number mapping failed" }
    | none => { success := false, error := some "Phone number mapping failed" }

/-- The aggregate result dict of configure_vapi_integration.  The steps dict is
modelled by one optional field per step; a step the orchestrator never ran
stays none. -/
structure IntegrationResult where
  vapi_fqdn : String
  phone_number : String
  converted_fqdn : String
  trunk_sid : String
  step_destination : Option StepResult := none
  step_phone : Option StepResult := none
  success : Bool := false
  error : Option String := none
  message : Option String := none
deriving DecidableEq

/-- VapiExotelIntegrator.configure_vapi_integration, lines 152-183: run the
destination step, short-circuit on its failure with a prefixed error message,
otherwise run the phone-mapping step, short-circuit likewise, otherwise
succeed.  The injected outcomes destO and phoneO stand for what the two
_make_request calls would produce. -/
def configure_vapi_integration (destO : ReqOutcome DestResult)
    (phoneO : ReqOutcome (Option PyDict)) (vapi_fqdn phone_number : String)
    (trunk_sid : Option String) (default_trunk : String) : IntegrationResult :=
  let dest_result := add_vapi_destination destO vapi_fqdn trunk_sid default_trunk
  if dest_result.success then
    let phone_result := map_phone_number phoneO phone_number trunk_sid default_trunk
    if phone_result.success then
      { vapi_fqdn := vapi_fqdn, phone_number := phone_number,
        converted_fqdn := convert_vapi_fqdn vapi_fqdn,
        trunk_sid := trunk_sid.getD default_trunk,
        step_destination := some dest_result, step_phone := some phone_result,
        success := true,
        message := some "Vapi-Exotel integration configured successfully" }
    else
      { vapi_fqdn := vapi_fqdn, phone_number := phone_number,
        converted_fqdn := convert_vapi_fqdn vapi_fqdn,
        trunk_sid := trunk_sid.getD default_trunk,
        step_destination := some dest_result, step_phone := some phone_result,
        success := false,
        error := some ("Failed to map phone number: " ++ phone_result.error.getD "") }
  else
    { vapi_fqdn := vapi_fqdn, phone_number := phone_number,
      converted_fqdn := convert_vapi_fqdn vapi_fqdn,
      trunk_sid := trunk_sid.getD default_trunk,
      step_destination := some dest_result, step_phone := none,
      success := false,
      error := some ("Failed to add destination: " ++ dest_result.error.getD "") }

/-- The exit status of main, lines 194-224: sys.exit(1) exactly on a failed
aggregate result, implicit exit 0 otherwise. -/
def main_exit_code (r : IntegrationResult) : Nat :=
  if r.success then 0 else 1

end VapiExotel

namespace Production

/-
Embedding of src/production_integration_script.py
(class VapiExotelProductionIntegrator).
-/

/-- VapiExotelProductionIntegrator.convert_vapi_fqdn, lines 236-238: an
unconditional Python replace of at signs by dots. -/
def convert_vapi_fqdn (s : String) : String :=
  String.mk (s.toList.map VapiExotel.substAt)

/-- The "data" dict of one trunk in the trunks listing. -/
structure TrunkData where
  status : Option String
  trunk_sid : Option String
  trunk_name : Option String
deriving DecidableEq

/-- One envelope of the trunks listing: outer "status" and optional "data"
(none also covers a present but falsy data value). -/
structure TrunkItem where
  status : Option String
  data : Option TrunkData
deriving DecidableEq

/-- The loop body of get_active_trunk, lines 247-255: return the trunk_sid of
the first envelope whose outer status is "success", whose data is truthy and
whose lower-cased trunk status is "active"; that return happens even when the
trunk_sid key is absent (yielding None). -/
def find_active : List TrunkItem → Option String
  | [] => none
  | item :: rest =>
    match item.data with
    | some trunk =>
      if item.status = some "success" then
        if pyLower (trunk.status.getD "") = "active" then trunk.trunk_sid
        else find_active rest
      else find_active rest
    | none => find_active rest

/-- VapiExotelProductionIntegrator.get_active_trunk, lines 240-262: scan the
listing when the request succeeded and the "response" list is truthy; every
other path (exception, falsy result, no match) yields None. -/
def get_active_trunk (o : ReqOutcome (Option (List TrunkItem))) : Option String :=
  match o with
  | .exn _ => none
  | .ok none => none
  | .ok (some items) => find_active items

/-- The destination-uris step of setup_fqdn_integration, lines 289-315, as the
optional error it returns the enclosing function with: none means the step
passed (including the duplicate-resource cases).  An empty "response" list
makes the [0] index raise IndexError inside the try, whose str() is the
standard Python message; an absent "data" key in the success branch raises
KeyError, whose str() is the quoted key name and carries no duplicate marker. -/
def setup_dest_step (o : ReqOutcome VapiExotel.DestResult) : Option String :=
  match o with
  | .exn e => if containsSub "Duplicate resource" e then none else some e
  | .ok r =>
    match r.response with
    | some (item :: _) =>
      if item.status = some "success" then
        match item.data with
        | some _ => none
        | none => some (pyQuote "data")
      else if containsSub "Duplicate resource" (pyGetD item.error_data "message" "") then none
      else some "Failed to add destination"
    | some [] => some "list index out of range"
    | none => some "Failed to add destination"

/-- The phone-numbers step of setup_fqdn_integration, lines 317-332: any
non-exception outcome passes; an exception passes only when its text contains
the duplicate marker. -/
def setup_phone_step (o : ReqOutcome Unit) : Option String :=
  match o with
  | .exn e => if containsSub "Duplicate resource" e then none else some e
  | .ok _ => none

/-- The result dict of setup_fqdn_integration; failure dicts set only success
and error. -/
structure FqdnResult where
  success : Bool := false
  error : Option String := none
  trunk_sid : Option String := none
  fqdn : Option String := none
  sip_destination : Option String := none
  phone_number : Option String := none
deriving DecidableEq

/-- VapiExotelProductionIntegrator.setup_fqdn_integration, lines 264-340:
convert the address, build the SIP destination, resolve a trunk (a falsy
trunk_sid aborts with the no-active-trunk error), then run the destination and
phone steps in order, aborting on the first error either returns. -/
def setup_fqdn_integration (trunkO : ReqOutcome (Option (List TrunkItem)))
    (destO : ReqOutcome VapiExotel.DestResult) (phoneO : ReqOutcome Unit)
    (vapi_fqdn phone_number : String) : FqdnResult :=
  let converted_fqdn := convert_vapi_fqdn vapi_fqdn
  let sip_destination := VapiExotel.build_sip_destination converted_fqdn
  match get_active_trunk trunkO with
  | none => { success := false, error := some "No active trunk found" }
  | some tsid =>
    if tsid = "" then { success := false, error := some "No active trunk found" }
    else
      match setup_dest_step destO with
      | some e => { success := false, error := some e }
      | none =>
        match setup_phone_step phoneO with
        | some e => { success := false, error := some e }
        | none =>
          { success := true, trunk_sid := some tsid, fqdn := some converted_fqdn,
            sip_destination := some sip_destination, phone_number := some phone_number }

/-- Whether a listed trunk envelope carries an active trunk in its data. -/
def isDataActive (i : TrunkItem) : Bool :=
  match i.data with
  | some t => pyLower (t.status.getD "") == "active"
  | none => false

end Production

namespace Outbound

/-
Embedding of the response-decoding part of src/src/exotel_outbound_calls.py
(class ExotelOutboundCaller).
-/

/-- Outcome of the XML library on the body: parsed with or without a Call
child element under the root, or an exception with its message. -/
inductive XmlParseOutcome where
  | parsed (call : Option (List (String × Option String)))
  | exn (msg : String)
deriving DecidableEq

/-- The decoded uniform mapping a 2xx body is turned into; each constructor
records the dict shape the Python code builds. -/
inductive Decoded (α : Type) where
  | json (v : α)
  | call (fields : List (String × Option String))
  | rawParsed (xml : String)
  | rawParseError (xml : String) (err : String)
  | rawSuccess (text : String)
deriving DecidableEq

/-- ExotelOutboundCaller._parse_xml_response, lines 97-115: on a parsed tree
with a Call child, the flat tag-to-text map of its children; on a parsed tree
without one, the raw xml tagged parsed; on an exception, the raw xml tagged
with the parse error. -/
def _parse_xml_response {α : Type} (xml_data : String) (o : XmlParseOutcome) : Decoded α :=
  match o with
  | .parsed (some fields) => .call fields
  | .parsed none => .rawParsed xml_data
  | .exn e => .rawParseError xml_data e

/-- Python whitespace stripped by str.strip (ASCII subset). -/
def isPySpace (c : Char) : Bool :=
  c == ' ' || c == '\t' || c == '\n' || c == '\r' || c == Char.ofNat 11 || c == Char.ofNat 12

/-- Python s.strip(). -/
def pyStrip (s : String) : String :=
  String.mk (((s.toList.dropWhile isPySpace).reverse.dropWhile isPySpace).reverse)

/-- The guard of line 164: response_data.strip().startswith the XML prologue. -/
def startsWithXml (s : String) : Bool :=
  "<?xml".toList.isPrefixOf (pyStrip s).toList

/-- A 2xx body together with what the external parsers would make of it:
jsonLoads is the outcome of json.loads on the text, xmlOutcome the outcome of
the XML library on it. -/
structure BodyOracle (α : Type) where
  text : String
  jsonLoads : Option α
  xmlOutcome : XmlParseOutcome
deriving DecidableEq

/-- The 2xx decoding chain of ExotelOutboundCaller._make_exotel_request,
lines 155-167: JSON first; when that fails, the XML decode only if the
stripped body starts with the XML prologue; otherwise the raw text tagged as
an opaque success payload. -/
def _make_exotel_request_decode {α : Type} (b : BodyOracle α) : Decoded α :=
  match b.jsonLoads with
  | some v => .json v
  | none =>
    if startsWithXml b.text then _parse_xml_response b.text b.xmlOutcome
    else .rawSuccess b.text

end Outbound

namespace Client

/-
Embedding of src/exotel-vsip-api/python/_client.py.
-/

/-- get_base_url, lines 10-20: a missing domain or account sid prints the
descriptive message and exits the process with status 1, modelled as the error
case; otherwise the v1 base URL is built. -/
def get_base_url (domain account_sid : Option String) : Except String String :=
  if !(pyTruthy domain) || !(pyTruthy account_sid) then
    .error "Error: Missing required environment variables (EXO_SUBSCRIBIX_DOMAIN, EXO_ACCOUNT_SID)"
  else
    .ok ("https://" ++ (domain.getD "") ++ "/v1/Accounts/" ++ (account_sid.getD ""))

/-- get_auth_header, lines 22-34, reduced to its gate: a missing key or token
prints the descriptive message and exits with status 1 before any request is
built; the base64 header value itself is opaque to every claim. -/
def auth_header_gate (auth_key auth_token : Option String) : Except String Unit :=
  if !(pyTruthy auth_key) || !(pyTruthy auth_token) then
    .error "Error: Missing required environment variables (EXO_AUTH_KEY, EXO_AUTH_TOKEN)"
  else
    .ok ()

end Client

/-! Helper lemmas -/

theorem toList_mk (l : List Char) : (String.mk l).toList = l := rfl

theorem map_substAt_of_not_mem {l : List Char} (h : '@' ∉ l) :
    l.map VapiExotel.substAt = l := by
  induction l with
  | nil => rfl
  | cons c t ih =>
    have hc : c ≠ '@' := fun hc => h (hc ▸ List.mem_cons_self c t)
    have ht : '@' ∉ t := fun hm => h (List.mem_cons_of_mem _ hm)
    simp only [List.map_cons, ih ht, VapiExotel.substAt, if_neg hc]

theorem not_at_mem_convert (s : String) :
    '@' ∉ (VapiExotel.convert_vapi_fqdn s).toList := by
  unfold VapiExotel.convert_vapi_fqdn
  by_cases h : '@' ∈ s.toList
  · rw [if_pos h, toList_mk]
    intro hm
    rcases List.mem_map.mp hm with ⟨c, _, hEq⟩
    by_cases hc : c = '@'
    · rw [VapiExotel.substAt, if_pos hc] at hEq
      exact absurd hEq (by decide)
    · rw [VapiExotel.substAt, if_neg hc] at hEq
      exact hc hEq
  · rw [if_neg h]
    exact h

theorem convert_eq_of_not_at {t : String} (ht : '@' ∉ t.toList) :
    VapiExotel.convert_vapi_fqdn t = t := by
  unfold VapiExotel.convert_vapi_fqdn
  rw [if_neg ht]

theorem find_active_skip (j : Production.TrunkItem) (rest : List Production.TrunkItem)
    (hj : Production.isDataActive j = false) :
    Production.find_active (j :: rest) = Production.find_active rest := by
  cases hd : j.data with
  | none => simp [Production.find_active, hd]
  | some td =>
    have hact : ¬ (pyLower (td.status.getD "") = "active") := by
      unfold Production.isDataActive at hj
      rw [hd] at hj
      simpa using hj
    by_cases hs : j.status = some "success"
    · simp [Production.find_active, hd, hs, hact]
    · simp [Production.find_active, hd, hs]

theorem find_active_none {items : List Production.TrunkItem}
    (hall : ∀ j ∈ items, Production.isDataActive j = false) :
    Production.find_active items = none := by
  induction items with
  | nil => rfl
  | cons j rest ih =>
    rw [find_active_skip j rest (hall j (List.mem_cons_self j rest))]
    exact ih (fun x hx => hall x (List.mem_cons_of_mem _ hx))

/-! Claim theorems -/

/-- Claim C2 (corrected), counterexample: on an address with two at signs the
normalizer replaces both of them, not only the first, so the output differs
from the first-only replacement the claim predicts. -/
theorem C2_counterexample :
    VapiExotel.convert_vapi_fqdn "a@b@c" = "a.b.c" ∧
    VapiExotel.convert_vapi_fqdn "a@b@c" ≠ "a.b@c" := by
  constructor <;> decide

/-- Claim C2 as amended: the normalizer replaces every at sign with a dot
(character-wise) and returns the input unchanged when no at sign is present;
the two concrete examples of the spec hold. -/
theorem C2_normalizer_behavior :
    VapiExotel.convert_vapi_fqdn "bot@sip.example.ai" = "bot.sip.example.ai" ∧
    VapiExotel.convert_vapi_fqdn "no-at-sign" = "no-at-sign" ∧
    (∀ s : String, (VapiExotel.convert_vapi_fqdn s).toList = s.toList.map VapiExotel.substAt) ∧
    (∀ s : String, '@' ∉ s.toList → VapiExotel.convert_vapi_fqdn s = s) := by
  refine ⟨by decide, by decide, ?_, fun s hs => convert_eq_of_not_at hs⟩
  intro s
  unfold VapiExotel.convert_vapi_fqdn
  by_cases h : '@' ∈ s.toList
  · rw [if_pos h, toList_mk]
  · rw [if_neg h, map_substAt_of_not_mem h]

/-- Witness for C2_normalizer_behavior at a concrete input. -/
theorem C2_normalizer_behavior_witness :
    VapiExotel.convert_vapi_fqdn "plain" = "plain" :=
  C2_normalizer_behavior.2.2.2 "plain" (by decide)

/-- Claim C1 (corrected), counterexample: when the attach step fails with the
error "boom", the aggregate error message is the prefixed string
"Failed to add destination: boom", not the attach error itself as the claim
states. -/
theorem C1_counterexample :
    (VapiExotel.configure_vapi_integration (.exn "boom") (.ok none) "a@b" "+1" none "tr1").error
      ≠ some "boom" ∧
    (VapiExotel.add_vapi_destination (.exn "boom") "a@b" none "tr1").success = false ∧
    (VapiExotel.add_vapi_destination (.exn "boom") "a@b" none "tr1").error = some "boom" := by
  refine ⟨by decide, by decide, by decide⟩

/-- Claim C1 as amended: if the attach step fails, the orchestrator does not
run the phone-mapping step (its slot in the steps dict stays empty and the
aggregate result does not depend on what the phone request would have
returned), the aggregate result has success false, and its error message is
the attach error prefixed with "Failed to add destination: ". -/
theorem C1_attach_failure_short_circuits :
    ∀ (destO : ReqOutcome VapiExotel.DestResult) (phoneO phoneO2 : ReqOutcome (Option PyDict))
      (f p : String) (tr : Option String) (dflt e : String),
      (VapiExotel.add_vapi_destination destO f tr dflt).success = false →
      (VapiExotel.add_vapi_destination destO f tr dflt).error = some e →
      (VapiExotel.configure_vapi_integration destO phoneO f p tr dflt).step_phone = none ∧
      (VapiExotel.configure_vapi_integration destO phoneO f p tr dflt).success = false ∧
      (VapiExotel.configure_vapi_integration destO phoneO f p tr dflt).error
        = some ("Failed to add destination: " ++ e) ∧
      VapiExotel.configure_vapi_integration destO phoneO f p tr dflt
        = VapiExotel.configure_vapi_integration destO phoneO2 f p tr dflt := by
  intro destO phoneO phoneO2 f p tr dflt e h1 h2
  simp [VapiExotel.configure_vapi_integration, h1, h2]

/-- Witness for C1_attach_failure_short_circuits at a concrete failing attach. -/
theorem C1_attach_failure_short_circuits_witness :
    (VapiExotel.configure_vapi_integration (.exn "oops") (.ok none) "x@y" "+2" none "t").step_phone
      = none ∧
    (VapiExotel.configure_vapi_integration (.exn "oops") (.ok none) "x@y" "+2" none "t").success
      = false ∧
    (VapiExotel.configure_vapi_integration (.exn "oops") (.ok none) "x@y" "+2" none "t").error
      = some ("Failed to add destination: " ++ "oops") ∧
    VapiExotel.configure_vapi_integration (.exn "oops") (.ok none) "x@y" "+2" none "t"
      = VapiExotel.configure_vapi_integration (.exn "oops")
          (.ok (some [("status", "success")])) "x@y" "+2" none "t" :=
  C1_attach_failure_short_circuits (.exn "oops") (.ok none)
    (.ok (some [("status", "success")])) "x@y" "+2" none "t" "oops" (by decide) (by decide)

/-- Claim C3 (confirmed): a provider response reporting a duplicate-resource
condition makes the attach-destination and map-phone-number steps succeed, in
both scripts: the integrator checks the str() of the error_data dict of the
first response item (attach) and the str() of the response dict (map); the
production script checks the message field of the error_data dict and the text
of a raised exception. -/
theorem C3_duplicate_is_success :
    (∀ (item : VapiExotel.DestItem) (rest : List VapiExotel.DestItem)
        (f : String) (tr : Option String) (dflt : String),
        item.status ≠ some "success" →
        containsSub "Duplicate resource" (pyStrDict item.error_data) = true →
        (VapiExotel.add_vapi_destination (.ok ⟨some (item :: rest)⟩) f tr dflt).success = true) ∧
    (∀ (d : PyDict) (p : String) (tr : Option String) (dflt : String),
        containsSub "Duplicate resource" (pyStrDict d) = true →
        (VapiExotel.map_phone_number (.ok (some d)) p tr dflt).success = true) ∧
    (∀ (item : VapiExotel.DestItem) (rest : List VapiExotel.DestItem),
        item.status ≠ some "success" →
        containsSub "Duplicate resource" (pyGetD item.error_data "message" "") = true →
        Production.setup_dest_step (.ok ⟨some (item :: rest)⟩) = none) ∧
    (∀ e : String, containsSub "Duplicate resource" e = true →
        Production.setup_phone_step (.exn e) = none) := by
  refine ⟨?_, ?_, ?_, ?_⟩
  · intro item rest f tr dflt h1 h2
    simp [VapiExotel.add_vapi_destination, h1, h2]
  · intro d p tr dflt h
    rcases d with _ | ⟨kv, rest⟩
    · exact absurd h (by decide)
    · simp [VapiExotel.map_phone_number, h]
  · intro item rest h1 h2
    simp [Production.setup_dest_step, h1, h2]
  · intro e h
    simp [Production.setup_phone_step, h]

/-- Witness for C3_duplicate_is_success at concrete duplicate responses. -/
theorem C3_duplicate_is_success_witness :
    (VapiExotel.add_vapi_destination
        (.ok ⟨some [⟨some "failure", [("message", "Duplicate resource exists")], none⟩]⟩)
        "a@b" none "t").success = true ∧
    (VapiExotel.map_phone_number (.ok (some [("error", "Duplicate resource")]))
        "+1" none "t").success = true ∧
    Production.setup_dest_step
        (.ok ⟨some [⟨some "failure", [("message", "Duplicate resource exists")], none⟩]⟩)
      = none ∧
    Production.setup_phone_step (.exn "Exotel API Error 409: Duplicate resource") = none :=
  ⟨C3_duplicate_is_success.1 _ [] "a@b" none "t" (by decide) (by decide),
   C3_duplicate_is_success.2.1 _ "+1" none "t" (by decide),
   C3_duplicate_is_success.2.2.1 _ [] (by decide) (by decide),
   C3_duplicate_is_success.2.2.2 _ (by decide)⟩

/-- Claim C6 (confirmed): for the address "mybot@sip.vapi.ai" and phone
"+1234567890", whenever both required steps succeed the aggregate result has
success true, its converted-address field is "mybot.sip.vapi.ai", and its
phone-number field echoes the input unchanged. -/
theorem C6_end_to_end_success :
    ∀ (destO : ReqOutcome VapiExotel.DestResult) (phoneO : ReqOutcome (Option PyDict))
      (dflt : String),
      (VapiExotel.add_vapi_destination destO "mybot@sip.vapi.ai" none dflt).success = true →
      (VapiExotel.map_phone_number phoneO "+1234567890" none dflt).success = true →
      (VapiExotel.configure_vapi_integration destO phoneO "mybot@sip.vapi.ai" "+1234567890"
          none dflt).success = true ∧
      (VapiExotel.configure_vapi_integration destO phoneO "mybot@sip.vapi.ai" "+1234567890"
          none dflt).converted_fqdn = "mybot.sip.vapi.ai" ∧
      (VapiExotel.configure_vapi_integration destO phoneO "mybot@sip.vapi.ai" "+1234567890"
          none dflt).phone_number = "+1234567890" := by
  intro destO phoneO dflt h1 h2
  refine ⟨?_, ?_, ?_⟩
  · simp [VapiExotel.configure_vapi_integration, h1, h2]
  · simp [VapiExotel.configure_vapi_integration, h1, h2]
    decide
  · simp [VapiExotel.configure_vapi_integration, h1, h2]

/-- Witness for C6_end_to_end_success at concrete successful responses. -/
theorem C6_end_to_end_success_witness :
    (VapiExotel.configure_vapi_integration
        (.ok ⟨some [⟨some "success", [],
            some [("id", "d1"), ("destination", "mybot.sip.vapi.ai:5060;transport=tcp")]⟩]⟩)
        (.ok (some [("status", "success")])) "mybot@sip.vapi.ai" "+1234567890"
        none "trunk1").success = true ∧
    (VapiExotel.configure_vapi_integration
        (.ok ⟨some [⟨some "success", [],
            some [("id", "d1"), ("destination", "mybot.sip.vapi.ai:5060;transport=tcp")]⟩]⟩)
        (.ok (some [("status", "success")])) "mybot@sip.vapi.ai" "+1234567890"
        none "trunk1").converted_fqdn = "mybot.sip.vapi.ai" ∧
    (VapiExotel.configure_vapi_integration
        (.ok ⟨some [⟨some "success", [],
            some [("id", "d1"), ("destination", "mybot.sip.vapi.ai:5060;transport=tcp")]⟩]⟩)
        (.ok (some [("status", "success")])) "mybot@sip.vapi.ai" "+1234567890"
        none "trunk1").phone_number = "+1234567890" :=
  C6_end_to_end_success _ _ "trunk1" (by decide) (by decide)

/-- Claim C4 (confirmed): when the trunk listing contains a unique active
trunk - no envelope before it carries active data, its own envelope has
status success with data present and a trunk_sid - resolution returns that
trunk identifier; when no envelope carries active data, resolution returns
None and the aggregate result of setup_fqdn_integration is a failure whose
error reports that no active trunk was found. -/
theorem C4_trunk_resolution :
    (∀ (pre post : List Production.TrunkItem) (it : Production.TrunkItem)
        (t : Production.TrunkData) (sid : String),
        (∀ j ∈ pre, Production.isDataActive j = false) →
        it.status = some "success" → it.data = some t →
        pyLower (t.status.getD "") = "active" → t.trunk_sid = some sid →
        Production.get_active_trunk (.ok (some (pre ++ it :: post))) = some sid) ∧
    (∀ items : List Production.TrunkItem,
        (∀ j ∈ items, Production.isDataActive j = false) →
        Production.get_active_trunk (.ok (some items)) = none ∧
        ∀ (destO : ReqOutcome VapiExotel.DestResult) (phoneO : ReqOutcome Unit) (f p : String),
          (Production.setup_fqdn_integration (.ok (some items)) destO phoneO f p).success
            = false ∧
          (Production.setup_fqdn_integration (.ok (some items)) destO phoneO f p).error
            = some "No active trunk found") := by
  constructor
  · intro pre post it t sid hpre h1 h2 h3 h4
    simp only [Production.get_active_trunk]
    induction pre with
    | nil =>
      simp [Production.find_active, h1, h2, h3, h4]
    | cons j rest ih =>
      rw [List.cons_append, find_active_skip j _ (hpre j (List.mem_cons_self j rest))]
      exact ih (fun x hx => hpre x (List.mem_cons_of_mem _ hx))
  · intro items hall
    have hn : Production.get_active_trunk (.ok (some items)) = none := by
      simp only [Production.get_active_trunk]
      exact find_active_none hall
    refine ⟨hn, ?_⟩
    intro destO phoneO f p
    constructor <;> simp [Production.setup_fqdn_integration, hn]

/-- Witness for C4_trunk_resolution at a concrete listing with one active
trunk, and at a concrete listing with no active trunk. -/
theorem C4_trunk_resolution_witness :
    Production.get_active_trunk
        (.ok (some [⟨some "success", some ⟨some "inactive", some "t0", none⟩⟩,
                    ⟨some "success", some ⟨some "Active", some "trunk123", none⟩⟩]))
      = some "trunk123" ∧
    Production.get_active_trunk
        (.ok (some [⟨some "success", some ⟨some "inactive", some "t0", none⟩⟩]))
      = none ∧
    (Production.setup_fqdn_integration
        (.ok (some [⟨some "success", some ⟨some "inactive", some "t0", none⟩⟩]))
        (.ok ⟨none⟩) (.ok ()) "bot@sip.vapi.ai" "+1").success = false ∧
    (Production.setup_fqdn_integration
        (.ok (some [⟨some "success", some ⟨some "inactive", some "t0", none⟩⟩]))
        (.ok ⟨none⟩) (.ok ()) "bot@sip.vapi.ai" "+1").error
      = some "No active trunk found" := by
  have h1 := C4_trunk_resolution.1
    [⟨some "success", some ⟨some "inactive", some "t0", none⟩⟩] []
    ⟨some "success", some ⟨some "Active", some "trunk123", none⟩⟩
    ⟨some "Active", some "trunk123", none⟩ "trunk123"
    (by decide) rfl rfl (by decide) rfl
  have h2 := C4_trunk_resolution.2
    [⟨some "success", some ⟨some "inactive", some "t0", none⟩⟩] (by decide)
  exact ⟨h1, h2.1, (h2.2 (.ok ⟨none⟩) (.ok ()) "bot@sip.vapi.ai" "+1").1,
    (h2.2 (.ok ⟨none⟩) (.ok ()) "bot@sip.vapi.ai" "+1").2⟩

/-- Claim C5 (confirmed): a non-2xx HTTP response makes the request client
fail with an exception whose message carries the original status code and the
response body text; the calling steps surface that message into their step
result. -/
theorem C5_non2xx_api_error :
    ∀ {α : Type} (cfg : VapiExotel.ExoConfig) (http : HttpExchange) (parsed : α),
      pyTruthy cfg.auth_key = true → pyTruthy cfg.auth_token = true →
      pyTruthy cfg.account_sid = true →
      ¬(200 ≤ http.status ∧ http.status ≤ 299) →
      VapiExotel._make_request cfg http parsed
        = .exn ("Exotel API Error " ++ Nat.repr http.status ++ ": " ++ http.body) ∧
      containsSub (Nat.repr http.status)
        ("Exotel API Error " ++ Nat.repr http.status ++ ": " ++ http.body) = true ∧
      containsSub http.body
        ("Exotel API Error " ++ Nat.repr http.status ++ ": " ++ http.body) = true := by
  intro α cfg http parsed h1 h2 h3 h4
  refine ⟨?_, ?_, ?_⟩
  · simp [VapiExotel._make_request, h1, h2, h3, h4]
  · apply decide_eq_true
    refine ⟨"Exotel API Error ".toList, (": " ++ http.body).toList, ?_⟩
    simp [String.toList, String.data_append, List.append_assoc]
  · apply decide_eq_true
    refine ⟨("Exotel API Error " ++ Nat.repr http.status ++ ": ").toList, [], ?_⟩
    simp [String.toList, String.data_append, List.append_assoc]

/-- Witness for C5_non2xx_api_error at a concrete 404 response. -/
theorem C5_non2xx_api_error_witness :
    VapiExotel._make_request ⟨some "k", some "tok", some "sid"⟩ ⟨404, "Not Found"⟩ "parsed"
      = .exn ("Exotel API Error " ++ Nat.repr 404 ++ ": " ++ "Not Found") ∧
    containsSub (Nat.repr 404)
      ("Exotel API Error " ++ Nat.repr 404 ++ ": " ++ "Not Found") = true ∧
    containsSub "Not Found"
      ("Exotel API Error " ++ Nat.repr 404 ++ ": " ++ "Not Found") = true :=
  C5_non2xx_api_error ⟨some "k", some "tok", some "sid"⟩ ⟨404, "Not Found"⟩ "parsed"
    (by decide) (by decide) (by decide) (by decide)

/-- Claim C7 (confirmed): the SIP destination built from a normalized address
is exactly that address followed by the literal suffix, as the builder
definition states, as the duplicate branch of the attach step records, and as
the successful aggregate result of setup_fqdn_integration records. -/
theorem C7_sip_suffix :
    (∀ a : String, VapiExotel.build_sip_destination a = a ++ ":5060;transport=tcp") ∧
    (∀ (item : VapiExotel.DestItem) (rest : List VapiExotel.DestItem)
        (f : String) (tr : Option String) (dflt : String),
        item.status ≠ some "success" →
        containsSub "Duplicate resource" (pyStrDict item.error_data) = true →
        (VapiExotel.add_vapi_destination (.ok ⟨some (item :: rest)⟩) f tr dflt).destination
          = some (VapiExotel.convert_vapi_fqdn f ++ ":5060;transport=tcp")) ∧
    (∀ (trunkO : ReqOutcome (Option (List Production.TrunkItem)))
        (destO : ReqOutcome VapiExotel.DestResult) (phoneO : ReqOutcome Unit) (f p : String),
        (Production.setup_fqdn_integration trunkO destO phoneO f p).success = true →
        (Production.setup_fqdn_integration trunkO destO phoneO f p).sip_destination
          = some (Production.convert_vapi_fqdn f ++ ":5060;transport=tcp")) := by
  refine ⟨fun a => rfl, ?_, ?_⟩
  · intro item rest f tr dflt h1 h2
    simp [VapiExotel.add_vapi_destination, VapiExotel.build_sip_destination, h1, h2]
  · intro trunkO destO phoneO f p h
    cases hG : Production.get_active_trunk trunkO with
    | none => simp [Production.setup_fqdn_integration, hG] at h
    | some tsid =>
      by_cases hE : tsid = ""
      · simp [Production.setup_fqdn_integration, hG, hE] at h
      · cases hD : Production.setup_dest_step destO with
        | some e => simp [Production.setup_fqdn_integration, hG, hE, hD] at h
        | none =>
          cases hP : Production.setup_phone_step phoneO with
          | some e => simp [Production.setup_fqdn_integration, hG, hE, hD, hP] at h
          | none =>
            simp [Production.setup_fqdn_integration, hG, hE, hD, hP,
              VapiExotel.build_sip_destination]

/-- Witness for C7_sip_suffix at a concrete duplicate attach response and a
concrete successful setup run. -/
theorem C7_sip_suffix_witness :
    (VapiExotel.add_vapi_destination
        (.ok ⟨some [⟨some "failure", [("message", "Duplicate resource")], none⟩]⟩)
        "bot@sip.vapi.ai" none "t").destination
      = some (VapiExotel.convert_vapi_fqdn "bot@sip.vapi.ai" ++ ":5060;transport=tcp") ∧
    (Production.setup_fqdn_integration
        (.ok (some [⟨some "success", some ⟨some "active", some "tr9", none⟩⟩]))
        (.ok ⟨some [⟨some "success", [], some []⟩]⟩) (.ok ())
        "bot@sip.vapi.ai" "+1").sip_destination
      = some (Production.convert_vapi_fqdn "bot@sip.vapi.ai" ++ ":5060;transport=tcp") :=
  ⟨C7_sip_suffix.2.1 _ [] "bot@sip.vapi.ai" none "t" (by decide) (by decide),
   C7_sip_suffix.2.2 _ _ _ "bot@sip.vapi.ai" "+1" (by decide)⟩

/-- Claim C8 (corrected), counterexample: a 2xx body that is not JSON, starts
with the XML prologue, and makes the XML parser raise, is returned as the raw
text tagged with the parse error, not as the opaque success payload the claim
predicts for a failed XML decode. -/
theorem C8_counterexample :
    Outbound._make_exotel_request_decode
        (⟨"<?xml bogus", none, .exn "syntax error"⟩ : Outbound.BodyOracle Unit)
      = .rawParseError "<?xml bogus" "syntax error" ∧
    Outbound._make_exotel_request_decode
        (⟨"<?xml bogus", none, .exn "syntax error"⟩ : Outbound.BodyOracle Unit)
      ≠ .rawSuccess "<?xml bogus" := by
  refine ⟨by decide, by decide⟩

/-- Claim C8 as amended: for a 2xx body, JSON decoding is attempted first; if
it fails and the stripped body starts with the XML prologue, the XML decode is
attempted, yielding the flat child map of the Call element on success, the raw
text tagged parsed when no Call element exists, and the raw text tagged with
the parse error when the XML parser raises; if JSON fails and the body does
not start with the XML prologue, the raw text is returned tagged as an opaque
success payload.  No parse outcome is fatal: every branch returns a value. -/
theorem C8_decode_chain :
    ∀ (α : Type) (b : Outbound.BodyOracle α),
      (∀ v, b.jsonLoads = some v → Outbound._make_exotel_request_decode b = .json v) ∧
      (b.jsonLoads = none → Outbound.startsWithXml b.text = true →
        (∀ m, b.xmlOutcome = .exn m →
          Outbound._make_exotel_request_decode b = .rawParseError b.text m) ∧
        (∀ fields, b.xmlOutcome = .parsed (some fields) →
          Outbound._make_exotel_request_decode b = .call fields) ∧
        (b.xmlOutcome = .parsed none →
          Outbound._make_exotel_request_decode b = .rawParsed b.text)) ∧
      (b.jsonLoads = none → Outbound.startsWithXml b.text = false →
        Outbound._make_exotel_request_decode b = .rawSuccess b.text) := by
  intro α b
  refine ⟨?_, ?_, ?_⟩
  · intro v hv
    simp [Outbound._make_exotel_request_decode, hv]
  · intro hj hx
    refine ⟨?_, ?_, ?_⟩
    · intro m hm
      simp [Outbound._make_exotel_request_decode, Outbound._parse_xml_response, hj, hx, hm]
    · intro fields hf
      simp [Outbound._make_exotel_request_decode, Outbound._parse_xml_response, hj, hx, hf]
    · intro hn
      simp [Outbound._make_exotel_request_decode, Outbound._parse_xml_response, hj, hx, hn]
  · intro hj hx
    simp [Outbound._make_exotel_request_decode, hj, hx]

/-- Witness for C8_decode_chain at concrete bodies, one per branch. -/
theorem C8_decode_chain_witness :
    Outbound._make_exotel_request_decode
        (⟨"[1]", some 1, .exn "unused"⟩ : Outbound.BodyOracle Nat) = .json 1 ∧
    Outbound._make_exotel_request_decode
        (⟨" <?xml a", none, .exn "bad token"⟩ : Outbound.BodyOracle Nat)
      = .rawParseError " <?xml a" "bad token" ∧
    Outbound._make_exotel_request_decode
        (⟨"<?xml ok", none, .parsed (some [("Sid", some "c1")])⟩ : Outbound.BodyOracle Nat)
      = .call [("Sid", some "c1")] ∧
    Outbound._make_exotel_request_decode
        (⟨"<?xml nocall", none, .parsed none⟩ : Outbound.BodyOracle Nat)
      = .rawParsed "<?xml nocall" ∧
    Outbound._make_exotel_request_decode
        (⟨"plain text", none, .exn "unused"⟩ : Outbound.BodyOracle Nat)
      = .rawSuccess "plain text" :=
  ⟨(C8_decode_chain Nat ⟨"[1]", some 1, .exn "unused"⟩).1 1 rfl,
   ((C8_decode_chain Nat ⟨" <?xml a", none, .exn "bad token"⟩).2.1 rfl (by decide)).1
     "bad token" rfl,
   ((C8_decode_chain Nat ⟨"<?xml ok", none,
       .parsed (some [("Sid", some "c1")])⟩).2.1 rfl (by decide)).2.1
     [("Sid", some "c1")] rfl,
   ((C8_decode_chain Nat ⟨"<?xml nocall", none, .parsed none⟩).2.1 rfl (by decide)).2.2 rfl,
   (C8_decode_chain Nat ⟨"plain text", none, .exn "unused"⟩).2.2 rfl (by decide)⟩

/-- Claim C9 (confirmed): with a required credential absent or blank, the
request client raises the descriptive configuration message whatever the
transport would have answered (so before any network call), the orchestration
run built on it fails, main exits with status 1, and the client script module
likewise aborts with its descriptive message when its required environment
values are missing. -/
theorem C9_config_missing :
    ∀ (cfg : VapiExotel.ExoConfig) (http : HttpExchange) (parsed : VapiExotel.DestResult)
      (phoneO : ReqOutcome (Option PyDict)) (f p : String) (tr : Option String) (dflt : String),
      (pyTruthy cfg.auth_key = false ∨ pyTruthy cfg.auth_token = false ∨
        pyTruthy cfg.account_sid = false) →
      VapiExotel._make_request cfg http parsed
        = .exn "Missing required Exotel credentials. Set EXO_AUTH_KEY, EXO_AUTH_TOKEN, and EXO_ACCOUNT_SID environment variables." ∧
      (VapiExotel.configure_vapi_integration (VapiExotel._make_request cfg http parsed)
          phoneO f p tr dflt).success = false ∧
      VapiExotel.main_exit_code
        (VapiExotel.configure_vapi_integration (VapiExotel._make_request cfg http parsed)
          phoneO f p tr dflt) = 1 ∧
      (∀ dom sid : Option String, pyTruthy dom = false ∨ pyTruthy sid = false →
        Client.get_base_url dom sid
          = .error "Error: Missing required environment variables (EXO_SUBSCRIBIX_DOMAIN, EXO_ACCOUNT_SID)") := by
  intro cfg http parsed phoneO f p tr dflt h
  have hm : VapiExotel._make_request cfg http parsed
      = .exn "Missing required Exotel credentials. Set EXO_AUTH_KEY, EXO_AUTH_TOKEN, and EXO_ACCOUNT_SID environment variables." := by
    rcases h with h | h | h <;> simp [VapiExotel._make_request, h]
  refine ⟨hm, ?_, ?_, ?_⟩
  · rw [hm]
    simp [VapiExotel.configure_vapi_integration, VapiExotel.add_vapi_destination]
  · rw [hm]
    simp [VapiExotel.main_exit_code, VapiExotel.configure_vapi_integration,
      VapiExotel.add_vapi_destination]
  · intro dom sid hds
    rcases hds with h2 | h2 <;> simp [Client.get_base_url, h2]

/-- Witness for C9_config_missing at a concrete configuration with the key
absent. -/
theorem C9_config_missing_witness :
    VapiExotel._make_request ⟨none, some "tok", some "sid"⟩ ⟨200, "ok"⟩
        (⟨none⟩ : VapiExotel.DestResult)
      = .exn "Missing required Exotel credentials. Set EXO_AUTH_KEY, EXO_AUTH_TOKEN, and EXO_ACCOUNT_SID environment variables." ∧
    (VapiExotel.configure_vapi_integration
        (VapiExotel._make_request ⟨none, some "tok", some "sid"⟩ ⟨200, "ok"⟩
          (⟨none⟩ : VapiExotel.DestResult))
        (.ok none) "x@y" "+1" none "t").success = false ∧
    VapiExotel.main_exit_code
      (VapiExotel.configure_vapi_integration
        (VapiExotel._make_request ⟨none, some "tok", some "sid"⟩ ⟨200, "ok"⟩
          (⟨none⟩ : VapiExotel.DestResult))
        (.ok none) "x@y" "+1" none "t") = 1 ∧
    Client.get_base_url none (some "a")
      = .error "Error: Missing required environment variables (EXO_SUBSCRIBIX_DOMAIN, EXO_ACCOUNT_SID)" := by
  have h := C9_config_missing ⟨none, some "tok", some "sid"⟩ ⟨200, "ok"⟩ ⟨none⟩
    (.ok none) "x@y" "+1" none "t" (Or.inl (by decide))
  exact ⟨h.1, h.2.1, h.2.2.1, h.2.2.2 none (some "a") (Or.inl (by decide))⟩

/-- Claim C10 (confirmed): the normalizer is idempotent, because its output
never contains an at sign. -/
theorem C10_normalizer_idempotent : ∀ s : String,
    VapiExotel.convert_vapi_fqdn (VapiExotel.convert_vapi_fqdn s) =
      VapiExotel.convert_vapi_fqdn s :=
  fun s => convert_eq_of_not_at (not_at_mem_convert s)

end ExoVapi
